import Mathlib

/-!
# Session Migration Reconciler — embedding

Shallow embedding of the session state-reconciliation workflow of the
`session-manager` VS Code extension:

* `HappyApiClient` (from `src/session-manager/src/api/client.ts`): the HTTP
  client for the session registry (`listSessions`, `getSession`,
  `killSession`, `clearHappyMetadata`, `pollSession`).
* `HappyCliExecutor` (from `src/session-manager/src/cli/executor.ts`): the
  reconciliation procedures `killSessionSilently` and `killSession`, and the
  resume action `resumeSessionInTerminal`.

The network is modelled by a `Transport` oracle giving the outcome of each
HTTP request (the GET of the session list is indexed by the poll number,
since the registry's answer may change over time).  Every operation returns
the list of registry requests it issued together with its result
(`Except String` mirrors JavaScript `throw new Error(message)`); the resume
action returns its full effect trace (notifications, requests, terminal
actions).  Polling time is modelled exactly as in the source: polls are
instantaneous and only the inter-poll sleeps advance the `elapsed` clock.
-/

/-- JavaScript truthiness of a nullable number (`!x` / `if (x)`):
`null`/`undefined` and `0` are falsy. -/
def jsTruthyNat : Option Nat → Bool
  | none => false
  | some 0 => false
  | some _ => true

/-- JavaScript truthiness of a nullable string (`!!x`): `null`/`undefined`
and the empty string are falsy. -/
def jsTruthyStr : Option String → Bool
  | none => false
  | some "" => false
  | some _ => true

/-- JavaScript `x || d` on a possibly-absent number (`options.timeout || 10000`):
the default is used when the value is absent or `0` (falsy). -/
def jsOrNat : Option Nat → Nat → Nat
  | none, d => d
  | some 0, d => d
  | some n, _ => n

/-- JavaScript `x || undefined` on a nullable string (`session.cwd || undefined`):
the empty string collapses to `undefined`. -/
def jsOrUndefined : Option String → Option String
  | none => none
  | some "" => none
  | some s => some s

/-- A session record of the registry (`LocalSession` in
`src/session-manager/src/types.ts`), restricted to the fields the
reconciliation and resume code reads; the remaining fields
(`projectPath`, `summary`, timestamps, …) are never touched by it. -/
structure LocalSession where
  claudeSessionId : String
  status : String
  cwd : Option String
  pid : Option Nat
  happySessionId : Option String
  happySessionTag : Option String
deriving DecidableEq

/-- Body of `POST /v1/local-sessions/:id/kill`
(the `options` of `HappyApiClient.killSession`). -/
structure KillOptions where
  signal : Option String
  targetPid : Option Nat
deriving DecidableEq

/-- Response body of the kill endpoint (`{ ok, signal, pid }`). -/
structure KillResult where
  ok : Bool
  signal : String
  pid : Nat
deriving DecidableEq

/-- A registry request issued on the wire by the client. -/
inductive Request where
  /-- `POST /v1/local-sessions/:id/kill` with its body. -/
  | kill (claudeSessionId : String) (options : KillOptions)
  /-- `GET /v1/local-sessions` with its query params. -/
  | list (claudeSessionId : Option String) (limit : Option Nat)
  /-- `POST /v1/local-sessions` upserting
  `{ claudeSessionId, happySessionId: null, happySessionTag: null }`. -/
  | upsertClear (claudeSessionId : String)
deriving DecidableEq

/-- One observable effect of the resume action. -/
inductive Effect where
  | request (r : Request)
  | showInformationMessage (message : String)
  | showWarningMessage (message : String)
  | createTerminal (name : String) (cwd : Option String)
  | sendText (text : String)
  | showTerminal
deriving DecidableEq

/-- The registry side of the wire, as an oracle: the transport-level outcome
of each request this run may issue.  `Except Unit` models an axios failure
(the client only logs the failure's message, so it carries no data).  The
list response is indexed by the poll number, because the registry's state
evolves between polls; the reconciler issues at most one kill and one clear
per run, so those need no index.  The oracle ignores the request's
arguments — theorems quantify over all oracles, so no generality is lost. -/
structure Transport where
  killResp : Except Unit KillResult
  listResp : Nat → Except Unit (Option (List LocalSession))
  clearResp : Except Unit Unit

namespace HappyApiClient

/-- Default registry base URL (`constructor(baseUrl = 'http://127.0.0.1:3005')`). -/
def baseUrl : String := "http://127.0.0.1:3005"

/-- Model of `listSessions` (client.ts): `GET /v1/local-sessions`; returns
`response.data.sessions || []` (a missing `sessions` field yields `[]`;
in JavaScript an empty array is truthy, so only `undefined` defaults);
a transport failure is caught and rethrown as a fixed message. -/
def listSessions (t : Transport) (n : Nat) (claudeSessionId : Option String)
    (limit : Option Nat) : List Request × Except String (List LocalSession) :=
  ([Request.list claudeSessionId limit],
   match t.listResp n with
   | Except.ok sessions => Except.ok (sessions.getD [])
   | Except.error _ =>
       Except.error ("Cannot connect to Happy server at " ++ baseUrl))

/-- Model of `killSession` (client.ts): `POST /v1/local-sessions/:id/kill` with the
caller's `options` as body; a transport failure is caught and rethrown. -/
def killSession (t : Transport) (claudeSessionId : String)
    (options : KillOptions) : List Request × Except String KillResult :=
  ([Request.kill claudeSessionId options],
   match t.killResp with
   | Except.ok r => Except.ok r
   | Except.error _ =>
       Except.error ("Cannot kill session " ++ claudeSessionId))

/-- Model of `clearHappyMetadata` (client.ts): upsert that nulls `happySessionId`
and `happySessionTag`; a transport failure is caught and rethrown. -/
def clearHappyMetadata (t : Transport) (claudeSessionId : String) :
    List Request × Except String Unit :=
  ([Request.upsertClear claudeSessionId],
   match t.clearResp with
   | Except.ok _ => Except.ok ()
   | Except.error _ =>
       Except.error ("Cannot detach session " ++ claudeSessionId ++ " from Happy"))

/-- Model of `getSession` (client.ts): `listSessions({ claudeSessionId, limit: 1 })`,
then `sessions.length > 0 ? sessions[0] : null`; any error from
`listSessions` is caught and rethrown as `Cannot fetch session …`. -/
def getSession (t : Transport) (n : Nat) (claudeSessionId : String) :
    List Request × Except String (Option LocalSession) :=
  let (reqs, res) := listSessions t n (some claudeSessionId) (some 1)
  (reqs,
   match res with
   | Except.ok sessions => Except.ok sessions.head?
   | Except.error _ =>
       Except.error ("Cannot fetch session " ++ claudeSessionId))

/-- The `while (Date.now() - startTime < timeout)` loop of `pollSession`:
`elapsed` is the clock relative to `startTime` (polls are instantaneous,
each `setTimeout` sleep adds `interval`), `n` numbers the polls.  The
structural `fuel` only bounds the recursion; `pollSession` supplies
`timeout + 1`, which cannot be exhausted since the effective interval is
at least 1, so the fuel-out branch (returning the same timeout error the
loop exit throws) is unreachable from `pollSession`. -/
def pollSessionGo (t : Transport) (claudeSessionId : String)
    (predicate : LocalSession → Bool) (timeout interval : Nat) :
    Nat → Nat → Nat → List Request × Except String LocalSession
  | _elapsed, _n, 0 =>
    ([], Except.error ("Polling timeout after " ++ toString timeout ++ "ms"))
  | elapsed, n, fuel + 1 =>
    if elapsed < timeout then
      let (reqs, got) := getSession t n claudeSessionId
      match got with
      | Except.error e => (reqs, Except.error e)
      | Except.ok none =>
        (reqs, Except.error ("Session " ++ claudeSessionId ++ " not found"))
      | Except.ok (some session) =>
        if predicate session then (reqs, Except.ok session)
        else
          let (rest, res) :=
            pollSessionGo t claudeSessionId predicate timeout interval
              (elapsed + interval) (n + 1) fuel
          (reqs ++ rest, res)
    else
      ([], Except.error ("Polling timeout after " ++ toString timeout ++ "ms"))

/-- Model of `pollSession` (client.ts): defaults `options.timeout || 10000` and
`options.interval || 500`, then runs the poll loop from `elapsed = 0`. -/
def pollSession (t : Transport) (claudeSessionId : String)
    (predicate : LocalSession → Bool) (timeoutOpt intervalOpt : Option Nat) :
    List Request × Except String LocalSession :=
  let timeout := jsOrNat timeoutOpt 10000
  let interval := jsOrNat intervalOpt 500
  pollSessionGo t claudeSessionId predicate timeout interval 0 0 (timeout + 1)

end HappyApiClient

namespace HappyCliExecutor

/-- Model of `killSessionSilently` (executor.ts): kill the given PID, poll until the
registry clears it (or reports `terminated`), then clear the Happy
metadata.  `if (!targetPid) throw` is the JavaScript falsy test. -/
def killSessionSilently (t : Transport) (session : LocalSession) :
    List Request × Except String Unit :=
  if jsTruthyNat session.pid = false then
    ([], Except.error "Session has no PID to kill")
  else
    let targetPid := session.pid.getD 0
    let (r1, killed) := HappyApiClient.killSession t session.claudeSessionId
      { signal := some "term", targetPid := some targetPid }
    match killed with
    | Except.error e => (r1, Except.error e)
    | Except.ok _ =>
      let (r2, polled) := HappyApiClient.pollSession t session.claudeSessionId
        (fun s => s.pid.isNone || s.status == "terminated")
        (some 10000) (some 500)
      match polled with
      | Except.error e => (r1 ++ r2, Except.error e)
      | Except.ok _ =>
        let (r3, cleared) :=
          HappyApiClient.clearHappyMetadata t session.claudeSessionId
        (r1 ++ r2 ++ r3, cleared)

/-- Model of `killSession` (executor.ts): same kill → poll sequence, but the
metadata clear is issued only when the session is a Happy session
(`!!session.happySessionId`). -/
def killSession (t : Transport) (session : LocalSession) :
    List Request × Except String Unit :=
  if jsTruthyNat session.pid = false then
    ([], Except.error "Session has no PID")
  else
    let targetPid := session.pid.getD 0
    let isHappySession := jsTruthyStr session.happySessionId
    let (r1, killed) := HappyApiClient.killSession t session.claudeSessionId
      { signal := some "term", targetPid := some targetPid }
    match killed with
    | Except.error e => (r1, Except.error e)
    | Except.ok _ =>
      let (r2, polled) := HappyApiClient.pollSession t session.claudeSessionId
        (fun s => s.pid.isNone || s.status == "terminated")
        (some 10000) (some 500)
      match polled with
      | Except.error e => (r1 ++ r2, Except.error e)
      | Except.ok _ =>
        if isHappySession then
          let (r3, cleared) :=
            HappyApiClient.clearHappyMetadata t session.claudeSessionId
          (r1 ++ r2 ++ r3, cleared)
        else
          (r1 ++ r2, Except.ok ())

/-- Model of `resumeSessionInTerminal` (executor.ts): for an active Happy session
with a PID, first try `killSessionSilently`, downgrading any failure to a
warning; then always create the terminal, send `claude --resume <id>`,
show the terminal and notify.  The function itself never throws, so its
model is just the effect trace. -/
def resumeSessionInTerminal (t : Transport) (session : LocalSession) :
    List Effect :=
  let sessionIdShort := session.claudeSessionId.take 8
  let isHappySession := jsTruthyStr session.happySessionId
  let isActive := session.status == "active" || session.status == "happy-active"
  let killPhase :=
    if isHappySession && isActive && jsTruthyNat session.pid then
      let (reqs, res) := killSessionSilently t session
      match res with
      | Except.ok _ =>
        Effect.showInformationMessage
            ("Moving session " ++ sessionIdShort ++ " from phone to VS Code...")
          :: reqs.map Effect.request
          ++ [Effect.showInformationMessage
                ("Session " ++ sessionIdShort ++ " terminated. Ready to resume locally.")]
      | Except.error e =>
        Effect.showInformationMessage
            ("Moving session " ++ sessionIdShort ++ " from phone to VS Code...")
          :: reqs.map Effect.request
          ++ [Effect.showWarningMessage
                ("Failed to kill active session: " ++ e ++ ". Attempting to resume anyway.")]
    else []
  killPhase ++
    [Effect.createTerminal ("Claude " ++ sessionIdShort) (jsOrUndefined session.cwd),
     Effect.sendText ("claude --resume " ++ session.claudeSessionId),
     Effect.showTerminal,
     Effect.showInformationMessage
       ("Resuming session " ++ sessionIdShort ++ " in terminal")]

end HappyCliExecutor

/-! ## Concrete sample data (used by the witnesses) -/

/-- A running phone-linked session, as the UI would pass it in. -/
def sampleSession : LocalSession :=
  { claudeSessionId := "abc12345-6789"
    status := "happy-active"
    cwd := some "/home/user/project"
    pid := some 4242
    happySessionId := some "happy-1"
    happySessionTag := some "tag-1" }

/-- The same session as the registry reports it once terminated. -/
def sampleCleared : LocalSession :=
  { sampleSession with status := "terminated", pid := none }

/-- A cooperative registry: kill accepted, every poll already sees the
process gone, clear accepted. -/
def sampleTransport : Transport :=
  { killResp := Except.ok { ok := true, signal := "term", pid := 4242 }
    listResp := fun _ => Except.ok (some [sampleCleared])
    clearResp := Except.ok () }

/-- A registry that accepts every request but never clears the process:
every poll still sees the running sample session. -/
def sampleStuckTransport : Transport :=
  { killResp := Except.ok { ok := true, signal := "term", pid := 4242 }
    listResp := fun _ => Except.ok (some [sampleSession])
    clearResp := Except.ok () }

/-- A registry whose record vanishes after the first poll: poll 0 sees the
running session, every later poll returns an empty list. -/
def sampleVanishTransport : Transport :=
  { killResp := Except.ok { ok := true, signal := "term", pid := 4242 }
    listResp := fun n =>
      if n = 0 then Except.ok (some [sampleSession]) else Except.ok (some [])
    clearResp := Except.ok () }

/-! ## Poll-loop lemmas -/

/-- If every poll observes a session that fails the predicate, the loop with
the executor's 10000 ms budget and 500 ms interval runs `j` more polls from
`elapsed = 10000 - 500 * j` and then times out. -/
theorem pollSessionGo_never_pred (t : Transport) (claudeSessionId : String)
    (predicate : LocalSession → Bool) (sn : Nat → LocalSession)
    (hresp : ∀ n, t.listResp n = Except.ok (some [sn n]))
    (hpred : ∀ n, predicate (sn n) = false) :
    ∀ j, j ≤ 20 → ∀ n fuel, j ≤ fuel →
      HappyApiClient.pollSessionGo t claudeSessionId predicate 10000 500
          (10000 - 500 * j) n fuel
        = (List.replicate j (Request.list (some claudeSessionId) (some 1)),
           Except.error ("Polling timeout after " ++ toString (10000 : Nat) ++ "ms")) := by
  intro j
  induction j with
  | zero =>
    intro _ n fuel _
    cases fuel with
    | zero => rfl
    | succ f => simp [HappyApiClient.pollSessionGo]
  | succ j ih =>
    intro hj n fuel hfuel
    cases fuel with
    | zero => omega
    | succ f =>
      have helapsed : 10000 - 500 * (j + 1) < 10000 := by omega
      have harith : 10000 - 500 * (j + 1) + 500 = 10000 - 500 * j := by omega
      rw [HappyApiClient.pollSessionGo, if_pos helapsed]
      simp only [HappyApiClient.getSession, HappyApiClient.listSessions, hresp n,
        Option.getD, List.head?, hpred n, harith,
        ih (by omega) (n + 1) f (by omega)]
      simp [List.replicate_succ]

/-- If the first `k` polls observe sessions failing the predicate and the
`k`-th poll (with `k < 20`, so still inside the budget) finds the record
missing, the loop fails with the not-found error after exactly `k + 1 - i`
more polls when started at poll `i`. -/
theorem pollSessionGo_missing (t : Transport) (claudeSessionId : String)
    (predicate : LocalSession → Bool) (k : Nat) (sn : Nat → LocalSession)
    (hk : k < 20)
    (hresp : ∀ n, n < k → t.listResp n = Except.ok (some [sn n]))
    (hpred : ∀ n, n < k → predicate (sn n) = false)
    (hmiss : t.listResp k = Except.ok (some [])) :
    ∀ fuel i, i ≤ k → k - i < fuel →
      HappyApiClient.pollSessionGo t claudeSessionId predicate 10000 500
          (500 * i) i fuel
        = (List.replicate (k + 1 - i) (Request.list (some claudeSessionId) (some 1)),
           Except.error ("Session " ++ claudeSessionId ++ " not found")) := by
  intro fuel
  induction fuel with
  | zero => intro i _ h; omega
  | succ f ih =>
    intro i hi hf
    have helapsed : 500 * i < 10000 := by omega
    rw [HappyApiClient.pollSessionGo, if_pos helapsed]
    rcases Nat.lt_or_ge i k with hik | hik
    · have harith : 500 * i + 500 = 500 * (i + 1) := by ring
      simp only [HappyApiClient.getSession, HappyApiClient.listSessions,
        hresp i hik, Option.getD, List.head?, hpred i hik, harith,
        ih (i + 1) (by omega) (by omega)]
      have hrep : k + 1 - i = (k + 1 - (i + 1)) + 1 := by omega
      simp [hrep, List.replicate_succ]
    · have hik' : i = k := by omega
      subst hik'
      simp only [HappyApiClient.getSession, HappyApiClient.listSessions, hmiss,
        Option.getD, List.head?]
      have hrep : i + 1 - i = 1 := by omega
      simp [hrep]

/-- General anatomy of one poll run: the issued requests are some number
`k` of identical session-list GETs, at least one when the loop is entered
within budget and with fuel, and a successful run's value is a session that
satisfies the predicate and was the observation of the last (`n + k - 1`-th)
poll. -/
theorem pollSessionGo_trace (t : Transport) (claudeSessionId : String)
    (predicate : LocalSession → Bool) (timeout interval : Nat) :
    ∀ fuel elapsed n, ∃ k,
      (HappyApiClient.pollSessionGo t claudeSessionId predicate timeout interval
          elapsed n fuel).1
        = List.replicate k (Request.list (some claudeSessionId) (some 1))
      ∧ (elapsed < timeout → 0 < fuel → 1 ≤ k)
      ∧ ∀ s', (HappyApiClient.pollSessionGo t claudeSessionId predicate timeout
            interval elapsed n fuel).2 = Except.ok s' →
          predicate s' = true
          ∧ (HappyApiClient.getSession t (n + k - 1) claudeSessionId).2
              = Except.ok (some s') := by
  intro fuel
  induction fuel with
  | zero =>
    intro elapsed n
    refine ⟨0, rfl, fun _ h => absurd h (Nat.lt_irrefl 0), fun s' h => ?_⟩
    simp [HappyApiClient.pollSessionGo] at h
  | succ f ih =>
    intro elapsed n
    by_cases h : elapsed < timeout
    · cases hg : t.listResp n with
      | error e =>
        refine ⟨1, ?_, fun _ _ => le_refl 1, fun s' hok => ?_⟩
        · rw [HappyApiClient.pollSessionGo, if_pos h]
          simp [HappyApiClient.getSession, HappyApiClient.listSessions, hg]
        · rw [HappyApiClient.pollSessionGo, if_pos h] at hok
          simp [HappyApiClient.getSession, HappyApiClient.listSessions, hg] at hok
      | ok sessions =>
        cases hh : (sessions.getD []).head? with
        | none =>
          refine ⟨1, ?_, fun _ _ => le_refl 1, fun s' hok => ?_⟩
          · rw [HappyApiClient.pollSessionGo, if_pos h]
            simp [HappyApiClient.getSession, HappyApiClient.listSessions, hg, hh]
          · rw [HappyApiClient.pollSessionGo, if_pos h] at hok
            simp [HappyApiClient.getSession, HappyApiClient.listSessions, hg, hh] at hok
        | some s =>
          by_cases hp : predicate s
          · refine ⟨1, ?_, fun _ _ => le_refl 1, fun s' hok => ?_⟩
            · rw [HappyApiClient.pollSessionGo, if_pos h]
              simp [HappyApiClient.getSession, HappyApiClient.listSessions, hg, hh, hp]
            · rw [HappyApiClient.pollSessionGo, if_pos h] at hok
              simp [HappyApiClient.getSession, HappyApiClient.listSessions, hg, hh, hp] at hok
              subst hok
              refine ⟨hp, ?_⟩
              simp [HappyApiClient.getSession, HappyApiClient.listSessions, hg, hh]
          · obtain ⟨k', h1, _, h3⟩ := ih (elapsed + interval) (n + 1)
            rcases hrec : HappyApiClient.pollSessionGo t claudeSessionId predicate
              timeout interval (elapsed + interval) (n + 1) f with ⟨rest, res⟩
            rw [hrec] at h1 h3
            refine ⟨k' + 1, ?_, fun _ _ => by omega, fun s' hok => ?_⟩
            · rw [HappyApiClient.pollSessionGo, if_pos h]
              simp [HappyApiClient.getSession, HappyApiClient.listSessions, hg, hh,
                hp, hrec, h1, List.replicate_succ]
            · rw [HappyApiClient.pollSessionGo, if_pos h] at hok
              simp [HappyApiClient.getSession, HappyApiClient.listSessions, hg, hh,
                hp, hrec] at hok
              have hidx : n + 1 + k' - 1 = n + (k' + 1) - 1 := by omega
              have := h3 s' hok
              rw [hidx] at this
              exact this
    · refine ⟨0, ?_, fun h' _ => absurd h' h, fun s' hok => ?_⟩
      · rw [HappyApiClient.pollSessionGo, if_neg h]
        rfl
      · rw [HappyApiClient.pollSessionGo, if_neg h] at hok
        simp at hok

/-- Running `pollSession` with the executor's options: the defaults do not kick in
and the loop starts with budget 10000, interval 500 and fuel 10001. -/
theorem pollSession_exec (t : Transport) (claudeSessionId : String)
    (predicate : LocalSession → Bool) :
    HappyApiClient.pollSession t claudeSessionId predicate (some 10000) (some 500)
      = HappyApiClient.pollSessionGo t claudeSessionId predicate 10000 500 0 0
          (10000 + 1) := rfl

/-! ## Executor-level run lemmas -/

/-- A run of `killSession` in which the registry accepts the kill, already
reports the process gone on the first poll, and accepts the metadata clear:
the executor issues exactly kill, one GET, clear, and succeeds. -/
theorem killSession_first_poll (t : Transport) (s : LocalSession)
    (kr : KillResult) (s0 : LocalSession)
    (hp : jsTruthyNat s.pid = true)
    (hh : jsTruthyStr s.happySessionId = true)
    (hkill : t.killResp = Except.ok kr)
    (h0 : t.listResp 0 = Except.ok (some [s0]))
    (hpred : (s0.pid.isNone || s0.status == "terminated") = true)
    (hclear : t.clearResp = Except.ok ()) :
    HappyCliExecutor.killSession t s =
      ([Request.kill s.claudeSessionId
          { signal := some "term", targetPid := some (s.pid.getD 0) },
        Request.list (some s.claudeSessionId) (some 1),
        Request.upsertClear s.claudeSessionId], Except.ok ()) := by
  have hstep :
      HappyApiClient.pollSessionGo t s.claudeSessionId
          (fun s' => s'.pid.isNone || s'.status == "terminated") 10000 500 0 0
          (10000 + 1)
        = ([Request.list (some s.claudeSessionId) (some 1)], Except.ok s0) := by
    rw [HappyApiClient.pollSessionGo, if_pos (by omega)]
    simp [HappyApiClient.getSession, HappyApiClient.listSessions, h0, hpred]
  simp only [HappyCliExecutor.killSession, hp, Bool.true_eq_false, if_false,
    HappyApiClient.killSession, hkill, pollSession_exec, hstep, hh, if_true,
    HappyApiClient.clearHappyMetadata, hclear]
  rfl

/-! ## Claims -/

/-- C2: for every session whose process id is absent, both reconciliation
procedures fail immediately with the `InvalidState` error (the source's
`Session has no PID to kill` / `Session has no PID` throws), issuing no
network request at all (empty request trace). -/
theorem c2_absent_pid_fails_without_network (t : Transport) (s : LocalSession)
    (habsent : s.pid = none) :
    HappyCliExecutor.killSessionSilently t s
        = ([], Except.error "Session has no PID to kill")
      ∧ HappyCliExecutor.killSession t s
        = ([], Except.error "Session has no PID") := by
  constructor <;>
    simp [HappyCliExecutor.killSessionSilently, HappyCliExecutor.killSession,
      habsent, jsTruthyNat]

/-- C2 witness: a concrete pid-less session against the cooperative
registry. -/
theorem c2_witness :
    sampleCleared.pid = none
    ∧ HappyCliExecutor.killSessionSilently sampleTransport sampleCleared
        = ([], Except.error "Session has no PID to kill")
    ∧ HappyCliExecutor.killSession sampleTransport sampleCleared
        = ([], Except.error "Session has no PID") :=
  ⟨rfl, (c2_absent_pid_fails_without_network sampleTransport sampleCleared rfl).1,
    (c2_absent_pid_fails_without_network sampleTransport sampleCleared rfl).2⟩

/-- C5: with a present (truthy) process id, a registry that accepts the
terminate call and already reports the pid cleared (or status terminated)
at the first poll, and a registry that accepts the metadata clear,
`killSessionSilently` resolves successfully after exactly one poll: its
request trace is kill, one session GET, clear. -/
theorem c5_first_poll_single_get (t : Transport) (s : LocalSession)
    (kr : KillResult) (s0 : LocalSession)
    (hp : jsTruthyNat s.pid = true)
    (hkill : t.killResp = Except.ok kr)
    (h0 : t.listResp 0 = Except.ok (some [s0]))
    (hpred : (s0.pid.isNone || s0.status == "terminated") = true)
    (hclear : t.clearResp = Except.ok ()) :
    HappyCliExecutor.killSessionSilently t s =
      ([Request.kill s.claudeSessionId
          { signal := some "term", targetPid := some (s.pid.getD 0) },
        Request.list (some s.claudeSessionId) (some 1),
        Request.upsertClear s.claudeSessionId], Except.ok ()) := by
  have hstep :
      HappyApiClient.pollSessionGo t s.claudeSessionId
          (fun s' => s'.pid.isNone || s'.status == "terminated") 10000 500 0 0
          (10000 + 1)
        = ([Request.list (some s.claudeSessionId) (some 1)], Except.ok s0) := by
    rw [HappyApiClient.pollSessionGo, if_pos (by omega)]
    simp [HappyApiClient.getSession, HappyApiClient.listSessions, h0, hpred]
  simp only [HappyCliExecutor.killSessionSilently, hp, Bool.true_eq_false,
    if_false, HappyApiClient.killSession, hkill, pollSession_exec, hstep,
    HappyApiClient.clearHappyMetadata, hclear]
  rfl

/-- C5 witness: the sample session against the cooperative registry. -/
theorem c5_witness :
    jsTruthyNat sampleSession.pid = true
    ∧ sampleTransport.killResp
        = Except.ok { ok := true, signal := "term", pid := 4242 }
    ∧ sampleTransport.listResp 0 = Except.ok (some [sampleCleared])
    ∧ (sampleCleared.pid.isNone || sampleCleared.status == "terminated") = true
    ∧ sampleTransport.clearResp = Except.ok ()
    ∧ HappyCliExecutor.killSessionSilently sampleTransport sampleSession
        = ([Request.kill "abc12345-6789"
              { signal := some "term", targetPid := some 4242 },
            Request.list (some "abc12345-6789") (some 1),
            Request.upsertClear "abc12345-6789"], Except.ok ()) :=
  ⟨rfl, rfl, rfl, rfl, rfl,
    c5_first_poll_single_get sampleTransport sampleSession
      { ok := true, signal := "term", pid := 4242 } sampleCleared
      rfl rfl rfl rfl rfl⟩

/-- C6: invoking `killSession` twice in sequence on a (stale) record whose
process was already terminated, against registries that treat the repeated
terminate and clear as accepted no-ops and always report the pid cleared,
succeeds both times; the second invocation still issues the no-op kill and
clear requests (and one poll) and raises no error.  The two invocations may
see different registry states `t` and `t'`, both in the already-cleared
regime. -/
theorem c6_reinvocation_idempotent (t t' : Transport) (s : LocalSession)
    (kr kr' : KillResult) (s0 s0' : LocalSession)
    (hp : jsTruthyNat s.pid = true) (hh : jsTruthyStr s.happySessionId = true)
    (hkill : t.killResp = Except.ok kr)
    (h0 : t.listResp 0 = Except.ok (some [s0]))
    (hpred : (s0.pid.isNone || s0.status == "terminated") = true)
    (hclear : t.clearResp = Except.ok ())
    (hkill' : t'.killResp = Except.ok kr')
    (h0' : t'.listResp 0 = Except.ok (some [s0']))
    (hpred' : (s0'.pid.isNone || s0'.status == "terminated") = true)
    (hclear' : t'.clearResp = Except.ok ()) :
    (HappyCliExecutor.killSession t s).2 = Except.ok ()
      ∧ HappyCliExecutor.killSession t' s =
          ([Request.kill s.claudeSessionId
              { signal := some "term", targetPid := some (s.pid.getD 0) },
            Request.list (some s.claudeSessionId) (some 1),
            Request.upsertClear s.claudeSessionId], Except.ok ()) := by
  constructor
  · rw [killSession_first_poll t s kr s0 hp hh hkill h0 hpred hclear]
  · exact killSession_first_poll t' s kr' s0' hp hh hkill' h0' hpred' hclear'

/-- C6 witness: both invocations against the cooperative registry. -/
theorem c6_witness :
    jsTruthyNat sampleSession.pid = true
    ∧ jsTruthyStr sampleSession.happySessionId = true
    ∧ sampleTransport.killResp
        = Except.ok { ok := true, signal := "term", pid := 4242 }
    ∧ sampleTransport.listResp 0 = Except.ok (some [sampleCleared])
    ∧ (sampleCleared.pid.isNone || sampleCleared.status == "terminated") = true
    ∧ sampleTransport.clearResp = Except.ok ()
    ∧ (HappyCliExecutor.killSession sampleTransport sampleSession).2 = Except.ok ()
    ∧ HappyCliExecutor.killSession sampleTransport sampleSession
        = ([Request.kill "abc12345-6789"
              { signal := some "term", targetPid := some 4242 },
            Request.list (some "abc12345-6789") (some 1),
            Request.upsertClear "abc12345-6789"], Except.ok ()) :=
  ⟨rfl, rfl, rfl, rfl, rfl, rfl,
    (c6_reinvocation_idempotent sampleTransport sampleTransport sampleSession
      { ok := true, signal := "term", pid := 4242 }
      { ok := true, signal := "term", pid := 4242 } sampleCleared sampleCleared
      rfl rfl rfl rfl rfl rfl rfl rfl rfl rfl).1,
    (c6_reinvocation_idempotent sampleTransport sampleTransport sampleSession
      { ok := true, signal := "term", pid := 4242 }
      { ok := true, signal := "term", pid := 4242 } sampleCleared sampleCleared
      rfl rfl rfl rfl rfl rfl rfl rfl rfl rfl).2⟩

/-- C7: for a session with a present (truthy) process id and a cross-device
link present, the resume path's reconciliation (`killSessionSilently`) and
the kill action's reconciliation (`killSession`) are the same function of
the registry: identical request traces (same kill body, same poll loop,
same metadata clear) and identical results, for every registry behaviour. -/
theorem c7_resume_and_kill_reconcile_identically (t : Transport)
    (s : LocalSession)
    (hp : jsTruthyNat s.pid = true)
    (hh : jsTruthyStr s.happySessionId = true) :
    HappyCliExecutor.killSessionSilently t s = HappyCliExecutor.killSession t s := by
  simp only [HappyCliExecutor.killSessionSilently, HappyCliExecutor.killSession,
    hp, Bool.true_eq_false, if_false, hh, if_true]

/-- C7 witness: the sample linked session against the cooperative
registry. -/
theorem c7_witness :
    jsTruthyNat sampleSession.pid = true
    ∧ jsTruthyStr sampleSession.happySessionId = true
    ∧ HappyCliExecutor.killSessionSilently sampleTransport sampleSession
        = HappyCliExecutor.killSession sampleTransport sampleSession :=
  ⟨rfl, rfl,
    c7_resume_and_kill_reconcile_identically sampleTransport sampleSession rfl rfl⟩

/-- C3: if the registry accepts the terminate call but every poll observes
a session that still has a pid and is not `terminated`, the reconciliation
fails with the polling-timeout error once the 10000 ms budget is exhausted,
after exactly 20 session GETs (polls at elapsed 0, 500, …, 9500 ms; polls
are instantaneous, only the 500 ms sleeps advance the clock), and without
issuing a metadata clear. -/
theorem c3_timeout_after_twenty_polls (t : Transport) (s : LocalSession)
    (kr : KillResult) (sn : Nat → LocalSession)
    (hp : jsTruthyNat s.pid = true)
    (hkill : t.killResp = Except.ok kr)
    (hresp : ∀ n, t.listResp n = Except.ok (some [sn n]))
    (hpred : ∀ n, ((sn n).pid.isNone || (sn n).status == "terminated") = false) :
    HappyCliExecutor.killSessionSilently t s =
      (Request.kill s.claudeSessionId
          { signal := some "term", targetPid := some (s.pid.getD 0) }
        :: List.replicate 20 (Request.list (some s.claudeSessionId) (some 1)),
       Except.error "Polling timeout after 10000ms") := by
  have hrun := pollSessionGo_never_pred t s.claudeSessionId
    (fun s' => s'.pid.isNone || s'.status == "terminated") sn hresp hpred
    20 (le_refl 20) 0 (10000 + 1) (by omega)
  have h0 : (10000 : Nat) - 500 * 20 = 0 := by norm_num
  rw [h0] at hrun
  simp only [HappyCliExecutor.killSessionSilently, hp, Bool.true_eq_false,
    if_false, HappyApiClient.killSession, hkill, pollSession_exec, hrun]
  rfl

/-- C3 witness: the sample session against the never-clearing registry
times out after exactly 20 polls. -/
theorem c3_witness :
    jsTruthyNat sampleSession.pid = true
    ∧ sampleStuckTransport.listResp 0 = Except.ok (some [sampleSession])
    ∧ (sampleSession.pid.isNone || sampleSession.status == "terminated") = false
    ∧ HappyCliExecutor.killSessionSilently sampleStuckTransport sampleSession
        = (Request.kill "abc12345-6789"
              { signal := some "term", targetPid := some 4242 }
            :: List.replicate 20 (Request.list (some "abc12345-6789") (some 1)),
           Except.error "Polling timeout after 10000ms") :=
  ⟨rfl, rfl, rfl,
    c3_timeout_after_twenty_polls sampleStuckTransport sampleSession
      { ok := true, signal := "term", pid := 4242 } (fun _ => sampleSession)
      rfl rfl (fun _ => rfl) (fun _ => rfl)⟩

/-- C4: if the first `k` polls contact the registry and observe a
still-running session, and the `k`-th poll (still within the 20-poll
budget) finds the record missing, the reconciliation fails immediately
with the not-found error: the trace is the kill and exactly `k + 1` GETs —
no further polls and no metadata clear. -/
theorem c4_missing_record_fails_immediately (t : Transport) (s : LocalSession)
    (kr : KillResult) (k : Nat) (sn : Nat → LocalSession)
    (hp : jsTruthyNat s.pid = true)
    (hkill : t.killResp = Except.ok kr)
    (hk : k < 20)
    (hresp : ∀ n, n < k → t.listResp n = Except.ok (some [sn n]))
    (hpred : ∀ n, n < k →
      ((sn n).pid.isNone || (sn n).status == "terminated") = false)
    (hmiss : t.listResp k = Except.ok (some [])) :
    HappyCliExecutor.killSessionSilently t s =
      (Request.kill s.claudeSessionId
          { signal := some "term", targetPid := some (s.pid.getD 0) }
        :: List.replicate (k + 1) (Request.list (some s.claudeSessionId) (some 1)),
       Except.error ("Session " ++ s.claudeSessionId ++ " not found")) := by
  have hrun := pollSessionGo_missing t s.claudeSessionId
    (fun s' => s'.pid.isNone || s'.status == "terminated") k sn hk hresp hpred
    hmiss (10000 + 1) 0 (by omega) (by omega)
  rw [Nat.mul_zero, Nat.sub_zero] at hrun
  simp only [HappyCliExecutor.killSessionSilently, hp, Bool.true_eq_false,
    if_false, HappyApiClient.killSession, hkill, pollSession_exec, hrun]
  rfl

/-- C4 witness: one successful poll, then the record vanishes (`k = 1`). -/
theorem c4_witness :
    jsTruthyNat sampleSession.pid = true
    ∧ sampleVanishTransport.listResp 0 = Except.ok (some [sampleSession])
    ∧ sampleVanishTransport.listResp 1 = Except.ok (some [])
    ∧ HappyCliExecutor.killSessionSilently sampleVanishTransport sampleSession
        = (Request.kill "abc12345-6789"
              { signal := some "term", targetPid := some 4242 }
            :: List.replicate 2 (Request.list (some "abc12345-6789") (some 1)),
           Except.error "Session abc12345-6789 not found") :=
  ⟨rfl, rfl, rfl,
    c4_missing_record_fails_immediately sampleVanishTransport sampleSession
      { ok := true, signal := "term", pid := 4242 } 1 (fun _ => sampleSession)
      rfl rfl (by omega)
      (fun n hn => by
        have hn0 : n = 0 := by omega
        subst hn0; rfl)
      (fun n _ => rfl) rfl⟩

/-- C8: the terminate request carries exactly the signal the caller selects
through the options: the client posts the caller's `options` verbatim as
the kill body (first conjunct, for every choice of options), and both
reconciliation procedures select `signal: 'term'` with the session's pid as
`targetPid` — that exact body is the first request on the wire. -/
theorem c8_signal_choice_is_sent (t : Transport) (claudeSessionId : String)
    (options : KillOptions) (s : LocalSession)
    (hp : jsTruthyNat s.pid = true) :
    (HappyApiClient.killSession t claudeSessionId options).1
        = [Request.kill claudeSessionId options]
      ∧ (HappyCliExecutor.killSessionSilently t s).1.head?
          = some (Request.kill s.claudeSessionId
              { signal := some "term", targetPid := some (s.pid.getD 0) })
      ∧ (HappyCliExecutor.killSession t s).1.head?
          = some (Request.kill s.claudeSessionId
              { signal := some "term", targetPid := some (s.pid.getD 0) }) := by
  refine ⟨rfl, ?_, ?_⟩
  · cases hkr : t.killResp with
    | error u =>
      simp [HappyCliExecutor.killSessionSilently, hp, HappyApiClient.killSession,
        hkr]
    | ok kr =>
      rcases hpoll : HappyApiClient.pollSessionGo t s.claudeSessionId
          (fun s' => s'.pid.isNone || s'.status == "terminated") 10000 500 0 0
          (10000 + 1) with ⟨r2, p⟩
      cases p with
      | error e =>
        simp [HappyCliExecutor.killSessionSilently, hp,
          HappyApiClient.killSession, hkr, pollSession_exec, hpoll]
      | ok s' =>
        simp [HappyCliExecutor.killSessionSilently, hp,
          HappyApiClient.killSession, hkr, pollSession_exec, hpoll,
          HappyApiClient.clearHappyMetadata]
  · cases hkr : t.killResp with
    | error u =>
      simp [HappyCliExecutor.killSession, hp, HappyApiClient.killSession, hkr]
    | ok kr =>
      rcases hpoll : HappyApiClient.pollSessionGo t s.claudeSessionId
          (fun s' => s'.pid.isNone || s'.status == "terminated") 10000 500 0 0
          (10000 + 1) with ⟨r2, p⟩
      cases p with
      | error e =>
        simp [HappyCliExecutor.killSession, hp, HappyApiClient.killSession,
          hkr, pollSession_exec, hpoll]
      | ok s' =>
        cases hh : jsTruthyStr s.happySessionId <;>
          simp [HappyCliExecutor.killSession, hp, HappyApiClient.killSession,
            hkr, pollSession_exec, hpoll, HappyApiClient.clearHappyMetadata, hh]

/-- C8 witness: for the sample session the first wire request of both
procedures is the kill with signal `term` and target pid 4242. -/
theorem c8_witness :
    jsTruthyNat sampleSession.pid = true
    ∧ (HappyApiClient.killSession sampleTransport "abc12345-6789"
          { signal := some "kill", targetPid := some 7 }).1
        = [Request.kill "abc12345-6789" { signal := some "kill", targetPid := some 7 }]
    ∧ (HappyCliExecutor.killSessionSilently sampleTransport sampleSession).1.head?
        = some (Request.kill "abc12345-6789"
            { signal := some "term", targetPid := some 4242 })
    ∧ (HappyCliExecutor.killSession sampleTransport sampleSession).1.head?
        = some (Request.kill "abc12345-6789"
            { signal := some "term", targetPid := some 4242 }) :=
  ⟨rfl,
    (c8_signal_choice_is_sent sampleTransport "abc12345-6789"
      { signal := some "kill", targetPid := some 7 } sampleSession rfl).1,
    (c8_signal_choice_is_sent sampleTransport "abc12345-6789"
      { signal := some "kill", targetPid := some 7 } sampleSession rfl).2.1,
    (c8_signal_choice_is_sent sampleTransport "abc12345-6789"
      { signal := some "kill", targetPid := some 7 } sampleSession rfl).2.2⟩

/-- C9: within the reconciliation procedures no error is swallowed,
replaced or recovered from: the result is exactly the chained composition
of the three sub-calls' results, each step's error surfaced verbatim
(`error e ↦ error e`) and each failure cutting off the later steps.  This
holds for every registry behaviour. -/
theorem c9_errors_propagate_unmodified (t : Transport) (s : LocalSession)
    (hp : jsTruthyNat s.pid = true) :
    (HappyCliExecutor.killSessionSilently t s).2 =
      (match (HappyApiClient.killSession t s.claudeSessionId
          { signal := some "term", targetPid := some (s.pid.getD 0) }).2 with
       | Except.error e => Except.error e
       | Except.ok _ =>
         match (HappyApiClient.pollSession t s.claudeSessionId
             (fun s' => s'.pid.isNone || s'.status == "terminated")
             (some 10000) (some 500)).2 with
         | Except.error e => Except.error e
         | Except.ok _ => (HappyApiClient.clearHappyMetadata t s.claudeSessionId).2)
    ∧ (HappyCliExecutor.killSession t s).2 =
      (match (HappyApiClient.killSession t s.claudeSessionId
          { signal := some "term", targetPid := some (s.pid.getD 0) }).2 with
       | Except.error e => Except.error e
       | Except.ok _ =>
         match (HappyApiClient.pollSession t s.claudeSessionId
             (fun s' => s'.pid.isNone || s'.status == "terminated")
             (some 10000) (some 500)).2 with
         | Except.error e => Except.error e
         | Except.ok _ =>
           if jsTruthyStr s.happySessionId then
             (HappyApiClient.clearHappyMetadata t s.claudeSessionId).2
           else Except.ok ()) := by
  constructor
  · cases hkr : t.killResp with
    | error u =>
      simp [HappyCliExecutor.killSessionSilently, hp,
        HappyApiClient.killSession, hkr]
    | ok kr =>
      rcases hpoll : HappyApiClient.pollSessionGo t s.claudeSessionId
          (fun s' => s'.pid.isNone || s'.status == "terminated") 10000 500 0 0
          (10000 + 1) with ⟨r2, p⟩
      cases p with
      | error e =>
        simp [HappyCliExecutor.killSessionSilently, hp,
          HappyApiClient.killSession, hkr, pollSession_exec, hpoll]
      | ok s' =>
        simp [HappyCliExecutor.killSessionSilently, hp,
          HappyApiClient.killSession, hkr, pollSession_exec, hpoll]
  · cases hkr : t.killResp with
    | error u =>
      simp [HappyCliExecutor.killSession, hp, HappyApiClient.killSession, hkr]
    | ok kr =>
      rcases hpoll : HappyApiClient.pollSessionGo t s.claudeSessionId
          (fun s' => s'.pid.isNone || s'.status == "terminated") 10000 500 0 0
          (10000 + 1) with ⟨r2, p⟩
      cases p with
      | error e =>
        simp [HappyCliExecutor.killSession, hp, HappyApiClient.killSession,
          hkr, pollSession_exec, hpoll]
      | ok s' =>
        cases hh : jsTruthyStr s.happySessionId <;>
          simp [HappyCliExecutor.killSession, hp, HappyApiClient.killSession,
            hkr, pollSession_exec, hpoll, hh]

/-- C9 witness: against a registry that rejects the terminate call, the
reconciliation surfaces exactly the kill step's error. -/
theorem c9_witness :
    jsTruthyNat sampleSession.pid = true
    ∧ (HappyCliExecutor.killSessionSilently
          { sampleTransport with killResp := Except.error () } sampleSession).2
        = Except.error "Cannot kill session abc12345-6789" :=
  ⟨rfl, by
    have h := (c9_errors_propagate_unmodified
      { sampleTransport with killResp := Except.error () } sampleSession rfl).1
    rw [h]
    rfl⟩

/-- C1: every run of either reconciliation procedure has one of exactly
four shapes, each with the side effects in strict sequence and each at most
once: (i) invalid state, no request at all; (ii) the single terminate
request, which failed, and nothing after it; (iii) the terminate request
followed by `k ≥ 1` polls, the poll phase failed, and no metadata clear;
(iv) the terminate request, `k ≥ 1` polls the last of which observed the
pid absent or status terminated, and only then the single metadata-clear
request (for `killSession`, only when the session is link-attached), whose
outcome is the run's outcome — so no step is retried and a failed step
prevents every later one. -/
theorem c1_strict_sequence_each_step_once (t : Transport) (s : LocalSession) :
    ((jsTruthyNat s.pid = false
        ∧ HappyCliExecutor.killSessionSilently t s
            = ([], Except.error "Session has no PID to kill"))
      ∨ (∃ e, HappyCliExecutor.killSessionSilently t s
            = ([Request.kill s.claudeSessionId
                  { signal := some "term", targetPid := some (s.pid.getD 0) }],
               Except.error e))
      ∨ (∃ k e, 1 ≤ k
          ∧ HappyCliExecutor.killSessionSilently t s
            = (Request.kill s.claudeSessionId
                  { signal := some "term", targetPid := some (s.pid.getD 0) }
                :: List.replicate k (Request.list (some s.claudeSessionId) (some 1)),
               Except.error e))
      ∨ (∃ k s', 1 ≤ k
          ∧ (s'.pid.isNone || s'.status == "terminated") = true
          ∧ (HappyApiClient.getSession t (k - 1) s.claudeSessionId).2
              = Except.ok (some s')
          ∧ HappyCliExecutor.killSessionSilently t s
            = (Request.kill s.claudeSessionId
                  { signal := some "term", targetPid := some (s.pid.getD 0) }
                :: List.replicate k (Request.list (some s.claudeSessionId) (some 1))
                ++ [Request.upsertClear s.claudeSessionId],
               (HappyApiClient.clearHappyMetadata t s.claudeSessionId).2)))
    ∧ ((jsTruthyNat s.pid = false
        ∧ HappyCliExecutor.killSession t s
            = ([], Except.error "Session has no PID"))
      ∨ (∃ e, HappyCliExecutor.killSession t s
            = ([Request.kill s.claudeSessionId
                  { signal := some "term", targetPid := some (s.pid.getD 0) }],
               Except.error e))
      ∨ (∃ k e, 1 ≤ k
          ∧ HappyCliExecutor.killSession t s
            = (Request.kill s.claudeSessionId
                  { signal := some "term", targetPid := some (s.pid.getD 0) }
                :: List.replicate k (Request.list (some s.claudeSessionId) (some 1)),
               Except.error e))
      ∨ (∃ k s', 1 ≤ k
          ∧ (s'.pid.isNone || s'.status == "terminated") = true
          ∧ (HappyApiClient.getSession t (k - 1) s.claudeSessionId).2
              = Except.ok (some s')
          ∧ ((jsTruthyStr s.happySessionId = true
              ∧ HappyCliExecutor.killSession t s
                = (Request.kill s.claudeSessionId
                      { signal := some "term", targetPid := some (s.pid.getD 0) }
                    :: List.replicate k
                        (Request.list (some s.claudeSessionId) (some 1))
                    ++ [Request.upsertClear s.claudeSessionId],
                   (HappyApiClient.clearHappyMetadata t s.claudeSessionId).2))
            ∨ (jsTruthyStr s.happySessionId = false
              ∧ HappyCliExecutor.killSession t s
                = (Request.kill s.claudeSessionId
                      { signal := some "term", targetPid := some (s.pid.getD 0) }
                    :: List.replicate k
                        (Request.list (some s.claudeSessionId) (some 1)),
                   Except.ok ()))))) := by
  constructor
  · cases hb : jsTruthyNat s.pid with
    | false =>
      exact Or.inl ⟨rfl, by simp [HappyCliExecutor.killSessionSilently, hb]⟩
    | true =>
      cases hkr : t.killResp with
      | error u =>
        refine Or.inr (Or.inl ⟨"Cannot kill session " ++ s.claudeSessionId, ?_⟩)
        simp [HappyCliExecutor.killSessionSilently, hb,
          HappyApiClient.killSession, hkr]
      | ok kr =>
        obtain ⟨k, htr, hge, hobs⟩ := pollSessionGo_trace t s.claudeSessionId
          (fun s' => s'.pid.isNone || s'.status == "terminated") 10000 500
          (10000 + 1) 0 0
        rcases hpoll : HappyApiClient.pollSessionGo t s.claudeSessionId
            (fun s' => s'.pid.isNone || s'.status == "terminated") 10000 500 0 0
            (10000 + 1) with ⟨r2, p⟩
        rw [hpoll] at htr hobs
        simp only at htr hobs
        have hk1 : 1 ≤ k := hge (by omega) (by omega)
        cases p with
        | error e =>
          refine Or.inr (Or.inr (Or.inl ⟨k, e, hk1, ?_⟩))
          simp [HappyCliExecutor.killSessionSilently, hb,
            HappyApiClient.killSession, hkr, pollSession_exec, hpoll, htr]
        | ok s' =>
          obtain ⟨hpred, hgot⟩ := hobs s' rfl
          refine Or.inr (Or.inr (Or.inr ⟨k, s', hk1, hpred, by simpa using hgot, ?_⟩))
          simp [HappyCliExecutor.killSessionSilently, hb,
            HappyApiClient.killSession, hkr, pollSession_exec, hpoll, htr,
            HappyApiClient.clearHappyMetadata]
  · cases hb : jsTruthyNat s.pid with
    | false =>
      exact Or.inl ⟨rfl, by simp [HappyCliExecutor.killSession, hb]⟩
    | true =>
      cases hkr : t.killResp with
      | error u =>
        refine Or.inr (Or.inl ⟨"Cannot kill session " ++ s.claudeSessionId, ?_⟩)
        simp [HappyCliExecutor.killSession, hb, HappyApiClient.killSession, hkr]
      | ok kr =>
        obtain ⟨k, htr, hge, hobs⟩ := pollSessionGo_trace t s.claudeSessionId
          (fun s' => s'.pid.isNone || s'.status == "terminated") 10000 500
          (10000 + 1) 0 0
        rcases hpoll : HappyApiClient.pollSessionGo t s.claudeSessionId
            (fun s' => s'.pid.isNone || s'.status == "terminated") 10000 500 0 0
            (10000 + 1) with ⟨r2, p⟩
        rw [hpoll] at htr hobs
        simp only at htr hobs
        have hk1 : 1 ≤ k := hge (by omega) (by omega)
        cases p with
        | error e =>
          refine Or.inr (Or.inr (Or.inl ⟨k, e, hk1, ?_⟩))
          simp [HappyCliExecutor.killSession, hb, HappyApiClient.killSession,
            hkr, pollSession_exec, hpoll, htr]
        | ok s' =>
          obtain ⟨hpred, hgot⟩ := hobs s' rfl
          refine Or.inr (Or.inr (Or.inr ⟨k, s', hk1, hpred, by simpa using hgot, ?_⟩))
          cases hh : jsTruthyStr s.happySessionId with
          | true =>
            refine Or.inl ⟨rfl, ?_⟩
            simp [HappyCliExecutor.killSession, hb, HappyApiClient.killSession,
              hkr, pollSession_exec, hpoll, htr, hh,
              HappyApiClient.clearHappyMetadata]
          | false =>
            refine Or.inr ⟨rfl, ?_⟩
            simp [HappyCliExecutor.killSession, hb, HappyApiClient.killSession,
              hkr, pollSession_exec, hpoll, htr, hh]

/-- C10: the resume action always creates the local terminal and sends the
`claude --resume <sessionId>` command — its effect trace ends with terminal
creation, the resume command, showing the terminal and the final
notification, for every registry behaviour and session (reconciliation
succeeded, failed, or skipped).  When the reconciliation branch runs and
fails, the failure is downgraded to a warning notification and the resume
still proceeds (second conjunct pins the whole trace). -/
theorem c10_resume_always_creates_terminal (t : Transport) (s : LocalSession) :
    (∃ pre, HappyCliExecutor.resumeSessionInTerminal t s =
        pre ++ [Effect.createTerminal ("Claude " ++ s.claudeSessionId.take 8)
                  (jsOrUndefined s.cwd),
                Effect.sendText ("claude --resume " ++ s.claudeSessionId),
                Effect.showTerminal,
                Effect.showInformationMessage
                  ("Resuming session " ++ s.claudeSessionId.take 8 ++ " in terminal")])
    ∧ ∀ e, (jsTruthyStr s.happySessionId
          && (s.status == "active" || s.status == "happy-active")
          && jsTruthyNat s.pid) = true →
        (HappyCliExecutor.killSessionSilently t s).2 = Except.error e →
        HappyCliExecutor.resumeSessionInTerminal t s =
          Effect.showInformationMessage
              ("Moving session " ++ s.claudeSessionId.take 8 ++ " from phone to VS Code...")
            :: (HappyCliExecutor.killSessionSilently t s).1.map Effect.request
            ++ [Effect.showWarningMessage
                  ("Failed to kill active session: " ++ e ++ ". Attempting to resume anyway."),
                Effect.createTerminal ("Claude " ++ s.claudeSessionId.take 8)
                  (jsOrUndefined s.cwd),
                Effect.sendText ("claude --resume " ++ s.claudeSessionId),
                Effect.showTerminal,
                Effect.showInformationMessage
                  ("Resuming session " ++ s.claudeSessionId.take 8 ++ " in terminal")] := by
  constructor
  · exact ⟨_, rfl⟩
  · intro e hguard herr
    rcases hks : HappyCliExecutor.killSessionSilently t s with ⟨reqs, res⟩
    rw [hks] at herr
    simp only at herr
    subst herr
    simp [HappyCliExecutor.resumeSessionInTerminal, hguard, hks]

/-- C10 witness: a registry that rejects the terminate call; the resume
action warns and still creates the terminal and sends the resume command. -/
theorem c10_witness :
    (jsTruthyStr sampleSession.happySessionId
        && (sampleSession.status == "active" || sampleSession.status == "happy-active")
        && jsTruthyNat sampleSession.pid) = true
    ∧ (HappyCliExecutor.killSessionSilently
          { sampleTransport with killResp := Except.error () } sampleSession).2
        = Except.error "Cannot kill session abc12345-6789"
    ∧ HappyCliExecutor.resumeSessionInTerminal
          { sampleTransport with killResp := Except.error () } sampleSession
        = [Effect.showInformationMessage
             "Moving session abc12345 from phone to VS Code...",
           Effect.request (Request.kill "abc12345-6789"
             { signal := some "term", targetPid := some 4242 }),
           Effect.showWarningMessage
             "Failed to kill active session: Cannot kill session abc12345-6789. Attempting to resume anyway.",
           Effect.createTerminal "Claude abc12345" (some "/home/user/project"),
           Effect.sendText "claude --resume abc12345-6789",
           Effect.showTerminal,
           Effect.showInformationMessage "Resuming session abc12345 in terminal"] :=
  ⟨rfl, rfl, by
    have h := (c10_resume_always_creates_terminal
      { sampleTransport with killResp := Except.error () } sampleSession).2
      "Cannot kill session abc12345-6789" rfl rfl
    rw [h]
    rfl⟩
